import Mathlib

/-!
Verification of the Prusa-Link serial/telemetry subsystem.

Shallow embedding of the Python sources:
  * `src/old_buddy/modules/telemetry_gatherer.py` (TelemetryGatherer)
  * `src/prusa/link/printer_adapter/informers/getters.py`
  * `src/prusa/link/printer_adapter/structures/module_data_classes.py`
  * `src/prusa/link/config/__init__.py` (Config / Settings instance guards)
  * `src/prusa/link/web/files_legacy.py` (api_modify)

Collaborator modules that the repository imports but whose sources are not
in the listing (old_buddy.modules.connect_api, old_buddy.modules.serial,
old_buddy.modules.state_manager, the serial-queue helpers and the regex
constants of prusa.link) are modelled from the specification; every such
definition carries a doc comment starting with "Modelled from the spec:".
-/

namespace PrusaLink

/-- Modelled from the spec: the printer operational states used by the
state manager (spec section 4.4 names base states READY, BUSY, ERROR,
ATTENTION and printing sub-states PRINTING, PAUSED, FINISHING); the
enum classes `States` (old_buddy) and `State` (prusa.connect.printer.const)
are absent from the source listing. -/
inductive State where
  | READY
  | BUSY
  | ERROR
  | ATTENTION
  | PRINTING
  | PAUSED
  | FINISHING
  deriving DecidableEq, Repr

/-- old_buddy spells the enum `States`; same carrier. -/
abbrev States := State

/-- Modelled from the spec: `PRINTING_STATES` of old_buddy.modules.state_manager
(absent from the source listing) — the print-capable states, i.e. the states in
which a print is active (spec section 4.4: printing sub-states PRINTING,
PAUSED, FINISHING). -/
def PRINTING_STATES : List States := [State.PRINTING, State.PAUSED, State.FINISHING]

/-- Modelled from the spec: the `Telemetry` snapshot class of
old_buddy.modules.connect_api (absent from the source listing): a bag of
optional fields, each unset until populated (spec section 3, "Telemetry
Snapshot").  The fields are the ones telemetry_gatherer.py assigns; the
firmware reports temperatures, positions and fans as decimals (modelled as
rationals) and times, progress, flow and speed as Python ints. -/
structure Telemetry where
  temp_nozzle : Option ℚ := none
  target_nozzle : Option ℚ := none
  temp_bed : Option ℚ := none
  target_bed : Option ℚ := none
  axis_x : Option ℚ := none
  axis_y : Option ℚ := none
  axis_z : Option ℚ := none
  e_fan : Option ℚ := none
  p_fan : Option ℚ := none
  printing_time : Option ℤ := none
  estimated_time : Option ℤ := none
  progress : Option ℤ := none
  flow : Option ℤ := none
  speed : Option ℤ := none
  state : Option State := none
  deriving DecidableEq, Repr

/-- `Telemetry()` — a freshly constructed snapshot, every field unset. -/
def Telemetry.fresh : Telemetry := {}

/-- `TelemetryGatherer.send_telemetry` (telemetry_gatherer.py lines 66-81):
reads the state from the state manager, stores its name into the snapshot,
clears the job fields unless the state is print-capable, clears axis_x and
axis_y when the state is PRINTING, and publishes the resulting snapshot.
The returned value is the snapshot as published (the mutated
`current_telemetry`). -/
def send_telemetry (state : State) (current : Telemetry) : Telemetry :=
  let t1 : Telemetry := { current with state := some state }
  let t2 : Telemetry :=
    if state ∈ PRINTING_STATES then t1
    else { t1 with printing_time := none, estimated_time := none, progress := none }
  let t3 : Telemetry :=
    if state = State.PRINTING then { t2 with axis_x := none, axis_y := none }
    else t2
  t3

/-- Modelled from the spec: the `WriteIgnored` exception of
old_buddy.modules.serial (absent from the source listing) — submission
rejected because write-exclusivity is held elsewhere (spec section 7). -/
inductive SerialError where
  | WriteIgnored
  deriving DecidableEq, Repr

/-- Modelled from the spec: the outcome of one `Serial.write` call —
either the line is accepted or the write raises `WriteIgnored` because
write-exclusivity is held elsewhere (spec sections 3 and 7).  The outcome
of each successive write call during a telemetry cycle is supplied by an
oracle so theorems quantify over every possible serial behaviour. -/
inductive WriteOutcome where
  | accepted
  | writeIgnored
  deriving DecidableEq, Repr

/-- Modelled from the spec: a raw `self.serial.write(line)` call — the line
is submitted, and the call raises `WriteIgnored` when the outcome oracle says
the queue rejected it.  Returns (lines written, exception raised). -/
def serial_write (outcome : WriteOutcome) (line : String) :
    List String × Option SerialError :=
  match outcome with
  | WriteOutcome.accepted => ([line], none)
  | WriteOutcome.writeIgnored => ([line], some SerialError.WriteIgnored)

/-- `TelemetryGatherer.ping_printer` (telemetry_gatherer.py lines 102-107):
`try: self.serial.write("PRUSA PING") except WriteIgnored: pass`.
Returns (lines written, exception escaping the method). -/
def ping_printer (outcome : WriteOutcome) : List String × Option SerialError :=
  match serial_write outcome "PRUSA PING" with
  | (w, some SerialError.WriteIgnored) => (w, none)
  | (w, none) => (w, none)

/-- One iteration body of the gcode loop in `update_telemetry`
(telemetry_gatherer.py lines 97-100):
`try: self.serial.write(gcode) except WriteIgnored: log.debug(...)`.
Returns (lines written, exception escaping the body). -/
def guarded_write (outcome : WriteOutcome) (gcode : String) :
    List String × Option SerialError :=
  match serial_write outcome gcode with
  | (w, some SerialError.WriteIgnored) => (w, none)
  | (w, none) => (w, none)

/-- `TELEMETRY_GCODES` (telemetry_gatherer.py line 28). -/
def TELEMETRY_GCODES : List String := ["M105", "M114", "PRUSA FAN", "M27", "M73"]

/-- The `for gcode in TELEMETRY_GCODES` loop of `update_telemetry`
(telemetry_gatherer.py lines 93-100).  `reads n` is the value returned by the
n-th read of `self.state_manager.base_state` during the cycle (the loop
re-reads it before every gcode and breaks when it is BUSY); `outcomes n` is
the outcome of the n-th serial write.  `i` is the index of the next read /
write.  Returns (lines written, exception escaping the loop). -/
def gcode_loop (reads : ℕ → State) (outcomes : ℕ → WriteOutcome) :
    ℕ → List String → List String × Option SerialError
  | _, [] => ([], none)
  | i, gcode :: rest =>
    if reads i = State.BUSY then ([], none)
    else
      match guarded_write (outcomes i) gcode with
      | (w, some e) => (w, some e)
      | (w, none) =>
        let (ws, e2) := gcode_loop reads outcomes (i + 1) rest
        (w ++ ws, e2)

/-- The mutable snapshots of a `TelemetryGatherer`
(telemetry_gatherer.py lines 57-58). -/
structure GathererState where
  current_telemetry : Telemetry
  last_telemetry : Telemetry
  deriving DecidableEq, Repr

/-- The result of one `update_telemetry` cycle: the gatherer state after the
cycle, the snapshot handed to `send_telemetry_signal`, the lines written to
the serial link, and the exception (if any) escaping the cycle. -/
structure CycleResult where
  gatherer : GathererState
  published : Telemetry
  writes : List String
  raised : Option SerialError
  deriving DecidableEq, Repr

/-- The serial traffic of one `update_telemetry` cycle
(telemetry_gatherer.py lines 89-100): if the first read of `base_state` is
BUSY, ping the printer; then run the gcode loop (an exception escaping the
ping would skip the loop).  Returns (lines written, exception escaping). -/
def cycle_io (reads : ℕ → State) (outcomes : ℕ → WriteOutcome) :
    List String × Option SerialError :=
  let (pingWrites, pingErr) :=
    if reads 0 = State.BUSY then ping_printer (outcomes 0) else ([], none)
  match pingErr with
  | some e => (pingWrites, some e)
  | none =>
    let (ws, e2) := gcode_loop reads outcomes 1 TELEMETRY_GCODES
    (pingWrites ++ ws, e2)

/-- `TelemetryGatherer.update_telemetry` (telemetry_gatherer.py lines 83-100):
publish the current snapshot via `send_telemetry`, move it to
`last_telemetry` and start a fresh `current_telemetry`; then, if
`base_state` is BUSY, ping the printer; finally write each telemetry gcode,
re-checking `base_state` before each and breaking when it is BUSY.
`state` is the value `self.state_manager.get_state()` returns inside
`send_telemetry`; `reads n` is the n-th read of
`self.state_manager.base_state`; `outcomes n` the outcome of the n-th
serial write of the cycle. -/
def update_telemetry (state : State) (reads : ℕ → State)
    (outcomes : ℕ → WriteOutcome) (g : GathererState) : CycleResult :=
  { gatherer :=
      { last_telemetry := send_telemetry state g.current_telemetry,
        current_telemetry := Telemetry.fresh },
    published := send_telemetry state g.current_telemetry,
    writes := (cycle_io reads outcomes).1,
    raised := (cycle_io reads outcomes).2 }

/-- `TelemetryGatherer.progress_handler` (telemetry_gatherer.py lines
136-140): `captured` is `int(match.groups()[0])`, the parsed percentage from
PROGRESS_REGEX; the snapshot's progress field is assigned only when
`0 <= progress <= 100`. -/
def progress_handler (captured : ℤ) (t : Telemetry) : Telemetry :=
  if 0 ≤ captured ∧ captured ≤ 100 then { t with progress := some captured }
  else t

/-- Modelled from the spec: the matcher constants of
prusa.link.printer_adapter.structures.regular_expressions (absent from the
source listing), identified by name. -/
inductive QueryMatcher where
  | PRINTER_TYPE_REGEX
  | FW_REGEX
  | NOZZLE_REGEX
  deriving DecidableEq, Repr

/-- Modelled from the spec: one Instruction submission through
enqueue_matchable / enqueue_instruction of
prusa.link.printer_adapter.input_output.serial.helpers (absent from the
source listing): the payload line, the optional expected-response matcher,
and the priority flag `to_front` (spec sections 3 and 4.2). -/
structure Submission where
  payload : String
  matcher : Option QueryMatcher
  to_front : Bool
  deriving DecidableEq, Repr

/-- The printer-type codes accepted by `get_printer_type`
(getters.py lines 17-22); PrinterType is prusa.connect.printer.const's enum. -/
inductive PrinterType where
  | I3MK3
  | I3MK3S
  deriving DecidableEq, Repr

/-- `PRINTER_TYPES` (getters.py lines 17-22). -/
def PRINTER_TYPES : List (ℤ × PrinterType) :=
  [(300, PrinterType.I3MK3), (20300, PrinterType.I3MK3),
   (302, PrinterType.I3MK3S), (20302, PrinterType.I3MK3S)]

/-- The RuntimeErrors the getters raise (getters.py lines 36, 48, 60, 75). -/
inductive RuntimeError where
  | unexpectedResponse
  | unsupportedPrinter (code : ℤ)
  deriving DecidableEq, Repr

/-- `get_printer_type` (getters.py lines 27-48): enqueue "M862.2 Q" with the
printer-type matcher at front priority, wait, and inspect the match.
`matchedCode` is `int(match.groups()[0])` of the resolved match, none when
the instruction resolved without a match.  Returns the submissions made (in
order) and the outcome; the errors.ID bookkeeping is a logging side effect
and is not modelled. -/
def get_printer_type (matchedCode : Option ℤ) :
    List Submission × Except RuntimeError PrinterType :=
  let query : Submission :=
    { payload := "M862.2 Q", matcher := some QueryMatcher.PRINTER_TYPE_REGEX,
      to_front := true }
  match matchedCode with
  | none => ([query], Except.error RuntimeError.unexpectedResponse)
  | some code =>
    match PRINTER_TYPES.lookup code with
    | some t => ([query], Except.ok t)
    | none =>
      ([query,
        { payload := "M117 Unsupported printer", matcher := none,
          to_front := true }],
       Except.error (RuntimeError.unsupportedPrinter code))

/-- Modelled from the spec: FW_REGEX applied at one position of a response
line — the pattern FW:(\d+\.\d+) (spec section 8 scenario); returns the text
of the first captured group when the pattern matches here. -/
def fw_match_at (l : List Char) : Option String :=
  match l with
  | 'F' :: 'W' :: ':' :: rest =>
    let d1 := rest.takeWhile Char.isDigit
    let r1 := rest.dropWhile Char.isDigit
    if d1 = [] then none
    else
      match r1 with
      | '.' :: r2 =>
        let d2 := r2.takeWhile Char.isDigit
        if d2 = [] then none
        else some (String.mk (d1 ++ '.' :: d2))
      | _ => none
  | _ => none

/-- Modelled from the spec: regex search of FW:(\d+\.\d+) in a line —
the leftmost position where the pattern matches wins. -/
def fw_search : List Char → Option String
  | [] => none
  | c :: rest =>
    match fw_match_at (c :: rest) with
    | some s => some s
    | none => fw_search rest

/-- Modelled from the spec: `instruction.match()` for the M115 instruction —
the serial queue feeds each response line to the instruction until one
matches FW_REGEX (spec section 4.1 capture_line); the match of the first
matching line is kept. -/
def fw_instruction_match (responses : List String) : Option String :=
  responses.findSome? (fun line => fw_search line.toList)

/-- `get_firmware_version` (getters.py lines 51-64): enqueue "M115" with
FW_REGEX at front priority, wait, and return the first captured group of the
match, raising RuntimeError when the instruction resolved without a match.
`responses` are the lines the printer yielded to this instruction; the
errors.FW bookkeeping is a side effect and is not modelled. -/
def get_firmware_version (responses : List String) :
    Submission × Except RuntimeError String :=
  let query : Submission :=
    { payload := "M115", matcher := some QueryMatcher.FW_REGEX,
      to_front := true }
  (query,
   match fw_instruction_match responses with
   | none => Except.error RuntimeError.unexpectedResponse
   | some fw => Except.ok fw)

/-- `get_nozzle_diameter` (getters.py lines 67-77): enqueue "M862.1 Q" with
the nozzle matcher at front priority, wait, and return
`float(match.groups()[0])`, raising RuntimeError when the instruction
resolved without a match.  `matched` is the parsed captured group. -/
def get_nozzle_diameter (matched : Option ℚ) :
    Submission × Except RuntimeError ℚ :=
  let query : Submission :=
    { payload := "M862.1 Q", matcher := some QueryMatcher.NOZZLE_REGEX,
      to_front := true }
  (query,
   match matched with
   | none => Except.error RuntimeError.unexpectedResponse
   | some d => Except.ok d)

/-- `StateManagerData` (module_data_classes.py lines 26-37), a pydantic
BaseModel: `base_state` has the explicit default State.READY,
`printing_state` and `override_state` the explicit default None; the
remaining Optional fields have pydantic's implicit default None. -/
structure StateManagerData where
  base_state : Option State := some State.READY
  printing_state : Option State := none
  override_state : Option State := none
  last_state : Option State := none
  current_state : Option State := none
  state_history : Option (List State) := none
  error_count : Option ℤ := none
  deriving DecidableEq, Repr

/-- The exceptions the class-level instance guards raise
(config/__init__.py lines 65, 188; telemetry_gatherer.py line 41). -/
inductive GuardError where
  | RuntimeError
  | AssertionError
  deriving DecidableEq, Repr

/-- The class attribute `instance` of a guarded class (`Config.instance`,
`Settings.instance`, `TelemetryGatherer.instance`), initially None; an
already-constructed object is identified by a numeric id. -/
structure GuardClass where
  cls_instance : Option ℕ := none
  deriving DecidableEq, Repr

/-- One Python object of a guarded class: its id and its own `instance`
attribute when the object carries one (assigning `self.instance = ...`
creates an instance attribute without touching the class attribute). -/
structure GuardObject where
  obj_id : ℕ
  obj_instance : Option (Option ℕ) := none
  deriving DecidableEq, Repr

/-- Python attribute lookup for `self.instance`: the object's instance
attribute when present, otherwise the class attribute. -/
def read_self_instance (cls : GuardClass) (obj : GuardObject) : Option ℕ :=
  match obj.obj_instance with
  | some v => v
  | none => cls.cls_instance

/-- The instance guard of `Config.__init__` (config/__init__.py lines 61-65
and 135): `if Config.instance is not None: raise RuntimeError(...)`, and at
the end of a successful construction `Config.instance = self` — both
touching the class attribute. -/
def Config_init (cls : GuardClass) (self_id : ℕ) :
    Except GuardError GuardClass :=
  if (cls.cls_instance).isSome then Except.error GuardError.RuntimeError
  else Except.ok { cls_instance := some self_id }

/-- The instance guard of `Settings.__init__` (config/__init__.py lines
184-189 and 232): same shape as Config's, on `Settings.instance`. -/
def Settings_init (cls : GuardClass) (self_id : ℕ) :
    Except GuardError GuardClass :=
  if (cls.cls_instance).isSome then Except.error GuardError.RuntimeError
  else Except.ok { cls_instance := some self_id }

/-- The instance guard of `TelemetryGatherer.__init__`
(telemetry_gatherer.py lines 37-42): `if self.instance is not None: raise
AssertionError(...)` reads through the fresh object (falling back to the
class attribute), but `self.instance = self` assigns an INSTANCE attribute:
the class attribute is left unchanged.  Returns the class state after
construction and the constructed object. -/
def TelemetryGatherer_init (cls : GuardClass) (self_id : ℕ) :
    Except GuardError (GuardClass × GuardObject) :=
  let obj : GuardObject := { obj_id := self_id }
  if (read_self_instance cls obj).isSome then
    Except.error GuardError.AssertionError
  else Except.ok (cls, { obj with obj_instance := some (some self_id) })

/-- The conditions `api_modify` raises (files_legacy.py lines 448-466). -/
inductive ApiCondition where
  | FileCurrentlyPrinted
  | DestinationSameAsSource
  | FileNotFound
  | PermissionError
  deriving DecidableEq, Repr

/-- `os.path.dirname`: everything up to the last '/' of the path; trailing
slashes of the head are stripped unless the head is all slashes; "" when the
path has no '/'. -/
def takeThroughLastSlash : List Char → Option (List Char)
  | [] => none
  | c :: rest =>
    match takeThroughLastSlash rest with
    | some t => some (c :: t)
    | none => if c = '/' then some [c] else none

/-- `os.path.dirname` on a path string (posixpath semantics). -/
def dirname (p : String) : String :=
  match takeThroughLastSlash p.toList with
  | none => ""
  | some head =>
    if head.all (fun c => c = '/') then String.mk head
    else String.mk ((head.reverse.dropWhile (fun c => c = '/')).reverse)

/-- `api_modify` (files_legacy.py lines 432-466): `fs` is the set of
existing filesystem paths, `source` and `destination` the os paths after
joining the request's fields with the storage root, `selected` the os path
of the file a job in progress prints, and `permission_denied` tells whether
makedirs/move would raise PermissionError.  Check order as in the source:
job conflict, destination equal to source, missing source; then makedirs +
move happen only when the destination's parent directory does not exist;
the handler answers HTTP 201 (state.HTTP_CREATED) in every non-raising
path. -/
def api_modify (job_in_progress : Bool) (selected : Option String)
    (permission_denied : Bool) (fs : List String)
    (source destination : String) :
    Except ApiCondition (List String × ℕ) :=
  let path := dirname destination
  if job_in_progress = true ∧ selected = some source then
    Except.error ApiCondition.FileCurrentlyPrinted
  else if source = destination then
    Except.error ApiCondition.DestinationSameAsSource
  else if source ∉ fs then
    Except.error ApiCondition.FileNotFound
  else if path ∉ fs then
    if permission_denied then Except.error ApiCondition.PermissionError
    else Except.ok (path :: destination :: fs.erase source, 201)
  else Except.ok (fs, 201)

/-! ## Theorems -/

/-- Both write outcomes leave `ping_printer` with the line attempted and no
exception escaping: the `except WriteIgnored: pass` clause swallows the
rejection. -/
theorem ping_printer_eq (o : WriteOutcome) :
    ping_printer o = (["PRUSA PING"], none) := by
  cases o <;> rfl

/-- Both write outcomes leave one loop body with the gcode attempted and no
exception escaping: the `except WriteIgnored` clause swallows the
rejection. -/
theorem guarded_write_eq (o : WriteOutcome) (gcode : String) :
    guarded_write o gcode = ([gcode], none) := by
  cases o <;> rfl

/-- C1 as stated is false: while PRINTING, `send_telemetry` clears only
axis_x and axis_y; a snapshot whose axis_z was populated keeps it in the
published snapshot. -/
theorem c1_counterexample :
    ¬ ((send_telemetry State.PRINTING
          { Telemetry.fresh with axis_z := some 5 }).axis_x = none ∧
       (send_telemetry State.PRINTING
          { Telemetry.fresh with axis_z := some 5 }).axis_y = none ∧
       (send_telemetry State.PRINTING
          { Telemetry.fresh with axis_z := some 5 }).axis_z = none) := by
  decide

/-- C1 (amended): every publish by `send_telemetry` has printing_time,
estimated_time and progress unset when the state is not print-capable, and
has axis_x and axis_y (though not axis_z) unset when the state is
PRINTING. -/
theorem c1_telemetry_gating (state : State) (t : Telemetry) :
    (state ∉ PRINTING_STATES →
      (send_telemetry state t).printing_time = none ∧
      (send_telemetry state t).estimated_time = none ∧
      (send_telemetry state t).progress = none) ∧
    (state = State.PRINTING →
      (send_telemetry state t).axis_x = none ∧
      (send_telemetry state t).axis_y = none) := by
  cases state <;> simp [send_telemetry, PRINTING_STATES]

/-- C1 witness: the gating theorem applied at READY (job fields cleared) and
at PRINTING (axis_x cleared). -/
theorem c1_telemetry_gating_witness :
    (send_telemetry State.READY
      { Telemetry.fresh with progress := some 7 }).progress = none ∧
    (send_telemetry State.PRINTING
      { Telemetry.fresh with axis_x := some 1 }).axis_x = none :=
  ⟨((c1_telemetry_gating State.READY
      { Telemetry.fresh with progress := some 7 }).1 (by decide)).2.2,
   ((c1_telemetry_gating State.PRINTING
      { Telemetry.fresh with axis_x := some 1 }).2 rfl).1⟩

/-- C2: in a cycle whose every read of base_state returns BUSY, the only
line written to the serial link is the keep-alive "PRUSA PING" (no
status-query gcode of the battery), and no exception escapes the cycle —
in particular a WriteIgnored outcome of the ping is swallowed. -/
theorem c2_busy_cycle (state : State) (reads : ℕ → State)
    (outcomes : ℕ → WriteOutcome) (g : GathererState)
    (hbusy : ∀ n, reads n = State.BUSY) :
    (update_telemetry state reads outcomes g).writes = ["PRUSA PING"] ∧
    (update_telemetry state reads outcomes g).raised = none := by
  simp [update_telemetry, cycle_io, TELEMETRY_GCODES, gcode_loop,
        ping_printer_eq, hbusy]

/-- C2 witness: a cycle with base_state constantly BUSY and every write
rejected with WriteIgnored still writes exactly the ping and raises
nothing. -/
theorem c2_busy_cycle_witness :
    (update_telemetry State.BUSY (fun _ => State.BUSY)
      (fun _ => WriteOutcome.writeIgnored)
      ⟨Telemetry.fresh, Telemetry.fresh⟩).writes = ["PRUSA PING"] ∧
    (update_telemetry State.BUSY (fun _ => State.BUSY)
      (fun _ => WriteOutcome.writeIgnored)
      ⟨Telemetry.fresh, Telemetry.fresh⟩).raised = none :=
  c2_busy_cycle State.BUSY (fun _ => State.BUSY)
    (fun _ => WriteOutcome.writeIgnored)
    ⟨Telemetry.fresh, Telemetry.fresh⟩ (fun _ => rfl)

/-- C3: after the publish step of every cycle, last_telemetry holds exactly
the snapshot just published (the current snapshot as mutated by
`send_telemetry`, so a field set during the previous cycle — e.g.
temp_nozzle — is carried into it), and current_telemetry is a fresh
snapshot with every field unset; neither is touched again during the
cycle. -/
theorem c3_snapshot_rotation (state : State) (reads : ℕ → State)
    (outcomes : ℕ → WriteOutcome) (g : GathererState) :
    (update_telemetry state reads outcomes g).gatherer.last_telemetry =
      (update_telemetry state reads outcomes g).published ∧
    (update_telemetry state reads outcomes g).published =
      send_telemetry state g.current_telemetry ∧
    (update_telemetry state reads outcomes g).published.temp_nozzle =
      g.current_telemetry.temp_nozzle ∧
    (update_telemetry state reads outcomes g).gatherer.current_telemetry =
      Telemetry.fresh := by
  refine ⟨rfl, rfl, ?_, rfl⟩
  cases state <;> simp [update_telemetry, send_telemetry, PRINTING_STATES]

/-- C4: in a cycle whose every read of base_state is not BUSY, the
status-query gcodes are written in exactly the fixed order M105, M114,
PRUSA FAN, M27, M73, and no exception escapes the cycle — whatever
WriteIgnored rejections the individual writes meet. -/
theorem c4_battery_order (state : State) (reads : ℕ → State)
    (outcomes : ℕ → WriteOutcome) (g : GathererState)
    (hnb : ∀ n, reads n ≠ State.BUSY) :
    (update_telemetry state reads outcomes g).writes =
      ["M105", "M114", "PRUSA FAN", "M27", "M73"] ∧
    (update_telemetry state reads outcomes g).raised = none := by
  simp [update_telemetry, cycle_io, TELEMETRY_GCODES, gcode_loop,
        guarded_write_eq, hnb]

/-- C4 witness: a cycle with base_state constantly READY and every write
rejected with WriteIgnored still attempts the full battery in order and
raises nothing. -/
theorem c4_battery_order_witness :
    (update_telemetry State.READY (fun _ => State.READY)
      (fun _ => WriteOutcome.writeIgnored)
      ⟨Telemetry.fresh, Telemetry.fresh⟩).writes =
      ["M105", "M114", "PRUSA FAN", "M27", "M73"] ∧
    (update_telemetry State.READY (fun _ => State.READY)
      (fun _ => WriteOutcome.writeIgnored)
      ⟨Telemetry.fresh, Telemetry.fresh⟩).raised = none :=
  c4_battery_order State.READY (fun _ => State.READY)
    (fun _ => WriteOutcome.writeIgnored)
    ⟨Telemetry.fresh, Telemetry.fresh⟩ (fun _ => State.noConfusion)

/-- C5: each startup probe — get_printer_type ("M862.2 Q"),
get_firmware_version ("M115") and get_nozzle_diameter ("M862.1 Q") —
submits its query Instruction with its matcher at front priority
(to_front = true). -/
theorem c5_front_priority (mt : Option ℤ) (responses : List String)
    (mn : Option ℚ) :
    (get_printer_type mt).1.head? =
      some { payload := "M862.2 Q",
             matcher := some QueryMatcher.PRINTER_TYPE_REGEX,
             to_front := true } ∧
    (get_firmware_version responses).1 =
      { payload := "M115", matcher := some QueryMatcher.FW_REGEX,
        to_front := true } ∧
    (get_nozzle_diameter mn).1 =
      { payload := "M862.1 Q", matcher := some QueryMatcher.NOZZLE_REGEX,
        to_front := true } := by
  refine ⟨?_, rfl, rfl⟩
  cases mt with
  | none => rfl
  | some code => cases h : PRINTER_TYPES.lookup code <;>
      simp [get_printer_type, h]

/-- C6: get_firmware_version raises RuntimeError when the M115 instruction
resolved without a match, and returns the first captured group of the
firmware-version match otherwise. -/
theorem c6_firmware_version (responses : List String) :
    (fw_instruction_match responses = none →
      (get_firmware_version responses).2 =
        Except.error RuntimeError.unexpectedResponse) ∧
    (∀ fw, fw_instruction_match responses = some fw →
      (get_firmware_version responses).2 = Except.ok fw) := by
  constructor
  · intro h; simp [get_firmware_version, h]
  · intro fw h; simp [get_firmware_version, h]

/-- C6 witness: the spec's scenario — the printer yields "FW:3.10" and
get_firmware_version returns "3.10". -/
theorem c6_firmware_version_witness :
    (get_firmware_version ["FW:3.10"]).2 = Except.ok "3.10" :=
  (c6_firmware_version ["FW:3.10"]).2 "3.10" (by decide)

/-- C7: a freshly constructed StateManagerData has base_state READY and
printing_state and override_state unset. -/
theorem c7_state_manager_defaults :
    ({} : StateManagerData).base_state = some State.READY ∧
    ({} : StateManagerData).printing_state = none ∧
    ({} : StateManagerData).override_state = none :=
  ⟨rfl, rfl, rfl⟩

/-- C8: Config and Settings raise on a second construction, but
TelemetryGatherer does not — its first construction leaves the class
attribute unchanged (self.instance = self creates an instance attribute),
so a second construction also completes, contrary to the guard's stated
purpose. -/
theorem c8_instance_guards :
    Config_init {} 1 = Except.ok { cls_instance := some 1 } ∧
    Config_init { cls_instance := some 1 } 2 =
      Except.error GuardError.RuntimeError ∧
    Settings_init { cls_instance := some 1 } 2 =
      Except.error GuardError.RuntimeError ∧
    TelemetryGatherer_init {} 1 =
      Except.ok ({}, { obj_id := 1, obj_instance := some (some 1) }) ∧
    TelemetryGatherer_init {} 2 =
      Except.ok ({}, { obj_id := 2, obj_instance := some (some 2) }) :=
  ⟨rfl, rfl, rfl, rfl, rfl⟩

/-- C9: progress_handler leaves the snapshot unchanged when the captured
percentage is outside 0..100, and whenever it does change the progress
field it stores exactly the captured value, which is then within
0..100. -/
theorem c9_progress_range (p : ℤ) (t : Telemetry) :
    ((p < 0 ∨ 100 < p) → progress_handler p t = t) ∧
    ((progress_handler p t).progress ≠ t.progress →
      (progress_handler p t).progress = some p ∧ 0 ≤ p ∧ p ≤ 100) := by
  by_cases h : 0 ≤ p ∧ p ≤ 100
  · exact ⟨fun hout => absurd hout (by omega),
      fun _ => ⟨by simp [progress_handler, h], h.1, h.2⟩⟩
  · refine ⟨fun _ => by simp [progress_handler, h], fun hne => ?_⟩
    simp [progress_handler, h] at hne

/-- C9 witness: the handler applied to the out-of-range capture 150 leaves
the snapshot unchanged, and applied to the in-range capture 50 stores 50. -/
theorem c9_progress_range_witness :
    progress_handler 150 { Telemetry.fresh with progress := some 3 } =
      { Telemetry.fresh with progress := some 3 } ∧
    ((progress_handler 50 Telemetry.fresh).progress = some 50 ∧
      (0 : ℤ) ≤ 50 ∧ (50 : ℤ) ≤ 100) :=
  ⟨(c9_progress_range 150
      { Telemetry.fresh with progress := some 3 }).1 (by decide),
   (c9_progress_range 50 Telemetry.fresh).2 (by decide)⟩

/-- C10: an api_modify request with an existing source, a destination
different from the source, no job conflict, and an existing destination
parent directory leaves the filesystem unchanged (no move) yet answers
HTTP 201; the move (with makedirs) is performed only when the destination's
parent directory does not exist. -/
theorem c10_modify_no_move (job : Bool) (selected : Option String)
    (perm : Bool) (fs : List String) (source destination : String)
    (hjob : ¬ (job = true ∧ selected = some source))
    (hne : destination ≠ source)
    (hsrc : source ∈ fs) :
    (dirname destination ∈ fs →
      api_modify job selected perm fs source destination =
        Except.ok (fs, 201)) ∧
    (dirname destination ∉ fs → perm = false →
      api_modify job selected perm fs source destination =
        Except.ok (dirname destination :: destination :: fs.erase source,
                   201)) := by
  constructor
  · intro hparent
    simp [api_modify, hjob, Ne.symm hne, hsrc, hparent]
  · intro hparent hperm
    simp [api_modify, hjob, Ne.symm hne, hsrc, hparent, hperm]

/-- C10 witness: moving "r/a.g" to "r/d/b.g" with the parent "r/d" already
present changes nothing and answers 201. -/
theorem c10_modify_no_move_witness :
    api_modify false none false ["r", "r/d", "r/a.g"] "r/a.g" "r/d/b.g" =
      Except.ok (["r", "r/d", "r/a.g"], 201) :=
  (c10_modify_no_move false none false ["r", "r/d", "r/a.g"]
    "r/a.g" "r/d/b.g" (by decide) (by decide) (by decide)).1 (by decide)

end PrusaLink
